import Mathlib

/-!
Verification development for the Kingcy economy bot (src/kingcy.py).

The Python module keeps one JSON file mapping user-id strings to account
records, and exposes chat commands: daily / checklist rewards with a
24-hour cooldown, a coin flip, a slot machine, and a simplified blackjack.
This file shallowly embeds the data model and the command logic and proves
or refutes the frozen claims about it.

Two layers are modelled, both directly from the source:

* a raw store layer (`Rec`, `JStore`): Python dicts as association lists,
  used where presence or absence of keys matters (`ensure_user_data`,
  `check_bet`, and the stale-snapshot bug in `daily` / `checklist`);
* a typed account layer (`Account`): records carrying the full schema that
  `ensure_user_data` creates (lines 70-81 of the source), used for the
  cooldown arithmetic and the game settlements.

Time is modelled in seconds: an ISO timestamp written by
`datetime.now(timezone.utc).isoformat()` is identified with its epoch
second count. `Timestamp.iso t` stands for a string that
`datetime.fromisoformat` parses to time `t`; `Timestamp.raw s` stands for
the sentinel "0" or any other string whose parse raises, which the
source catches with a bare `except` (lines 118-120).
-/

/-- Configuration constants of the source (lines 18-22). -/
def INITIAL_BALANCE : Int := 500

/-- Daily reward amount (line 19). -/
def DAILY_REWARD : Int := 200

/-- Checklist reward amount (line 20). -/
def CHECKLIST_REWARD : Int := 150

/-- Daily cooldown in hours (line 21). -/
def COOLDOWN_DAILY : Int := 24

/-- Checklist cooldown in hours (line 22). -/
def COOLDOWN_CHECKLIST : Int := 24

/-- A stored timestamp string. `iso t` models a string that
`datetime.fromisoformat` parses to epoch second `t`; `raw s` models the
sentinel "0" written by `ensure_user_data` or any other unparsable
string. -/
inductive Timestamp where
  | iso (t : Int)
  | raw (s : String)
deriving DecidableEq

/-- The account record schema created by `ensure_user_data`
(source lines 70-81). All numeric fields are Python ints. -/
structure Account where
  balance : Int
  daily_last_claimed : Timestamp
  checklist_last_claimed : Timestamp
  wins_flip : Int
  losses_flip : Int
  wins_slot : Int
  losses_slot : Int
  wins_bj : Int
  losses_bj : Int
  total_gambled : Int
deriving DecidableEq

/-- The default record `ensure_user_data` creates for a new user
(source lines 70-81), as a typed account. -/
def fresh_account : Account :=
  { balance := INITIAL_BALANCE
    daily_last_claimed := .raw "0"
    checklist_last_claimed := .raw "0"
    wins_flip := 0
    losses_flip := 0
    wins_slot := 0
    losses_slot := 0
    wins_bj := 0
    losses_bj := 0
    total_gambled := 0 }

/-- `get_cooldown_message` (source lines 102-120): with a parsable
timestamp, the next claim time is the stored time plus the cooldown in
hours; if it is still in the future the remaining duration (in seconds)
is returned, else `none`. A parse failure falls into the bare `except`
and returns `none` (fail-open). The h/m/s rendering of the message is
display glue; the message is modelled by the remaining seconds. -/
def get_cooldown_message : Timestamp → Int → Int → Option Int
  | .raw _, _, _ => none
  | .iso t, cooldown_hours, now =>
    let next_claim := t + cooldown_hours * 3600
    if next_claim > now then some (next_claim - now) else none

/-- Outcome of a daily / checklist claim at the typed layer. -/
inductive ClaimRes where
  | cooldownActive (remaining : Int)
  | claimed
deriving DecidableEq

/-- The business logic of the `daily` command on a schema-complete
account (source lines 151-165): refuse while the cooldown message is
non-null, otherwise add `DAILY_REWARD` to the balance and stamp
`daily_last_claimed` with the current UTC time. -/
def daily (a : Account) (now : Int) : Account × ClaimRes :=
  match get_cooldown_message a.daily_last_claimed COOLDOWN_DAILY now with
  | some rem => (a, .cooldownActive rem)
  | none =>
    ({ a with balance := a.balance + DAILY_REWARD
              daily_last_claimed := .iso now }, .claimed)

/-- The business logic of the `checklist` command on a schema-complete
account (source lines 193-203), same shape as `daily` with the
checklist reward and timestamp field. -/
def checklist (a : Account) (now : Int) : Account × ClaimRes :=
  match get_cooldown_message a.checklist_last_claimed COOLDOWN_CHECKLIST now with
  | some rem => (a, .cooldownActive rem)
  | none =>
    ({ a with balance := a.balance + CHECKLIST_REWARD
              checklist_last_claimed := .iso now }, .claimed)

/-- A JSON value stored in an account record: an int, or a timestamp
string. -/
inductive JV where
  | num (n : Int)
  | ts (t : Timestamp)
deriving DecidableEq

/-- A raw account record: a Python dict from field names to values,
as an association list in insertion order. -/
abbrev Rec := List (String × JV)

/-- The persisted store: a Python dict from user-id strings to records. -/
abbrev JStore := List (String × Rec)

/-- Python dict lookup `d[k]` as an option. -/
def lookupKey : List (String × α) → String → Option α
  | [], _ => none
  | (k1, v1) :: rest, k => if k1 = k then some v1 else lookupKey rest k

/-- Python dict assignment `d[k] = v`: update in place if the key exists,
else append. -/
def setKey : List (String × α) → String → α → List (String × α)
  | [], k, v => [(k, v)]
  | (k1, v1) :: rest, k, v =>
    if k1 = k then (k1, v) :: rest else (k1, v1) :: setKey rest k v

/-- The default record dict created for a new user
(source lines 70-81). -/
def default_user_record : Rec :=
  [ ("balance", .num INITIAL_BALANCE)
  , ("daily_last_claimed", .ts (.raw "0"))
  , ("checklist_last_claimed", .ts (.raw "0"))
  , ("wins_flip", .num 0)
  , ("losses_flip", .num 0)
  , ("wins_slot", .num 0)
  , ("losses_slot", .num 0)
  , ("wins_bj", .num 0)
  , ("losses_bj", .num 0)
  , ("total_gambled", .num 0) ]

/-- `ensure_user_data` (source lines 64-83): load the store; if the user
id is absent, insert the default record and save; return the record under
the id together with the resulting persisted store. When the id is
present nothing is written and the stored record is returned as is. -/
def ensure_user_data (disk : JStore) (uid : String) : Rec × JStore :=
  match lookupKey disk uid with
  | some r => (r, disk)
  | none => (default_user_record, setKey disk uid default_user_record)

theorem lookupKey_setKey_self (m : List (String × α)) (k : String) (v : α) :
    lookupKey (setKey m k v) k = some v := by
  induction m with
  | nil => simp [setKey, lookupKey]
  | cons hd tl ih =>
    obtain ⟨k1, v1⟩ := hd
    by_cases h : k1 = k <;> simp [setKey, lookupKey, h, ih]

theorem ensure_user_data_present {disk : JStore} {uid : String} {r : Rec}
    (h : lookupKey disk uid = some r) :
    ensure_user_data disk uid = (r, disk) := by
  simp [ensure_user_data, h]

theorem ensure_user_data_absent {disk : JStore} {uid : String}
    (h : lookupKey disk uid = none) :
    ensure_user_data disk uid =
      (default_user_record, setKey disk uid default_user_record) := by
  simp [ensure_user_data, h]

/-- Result of running the full `daily` / `checklist` command flow.
`aborted` models an uncaught Python exception (KeyError on a missing
dict key, AttributeError or TypeError on an ill-typed field), which
discord.py swallows outside the command body: no reward is credited. -/
inductive CmdRes where
  | aborted
  | cooldownActive (remaining : Int)
  | claimed (newBalance : Int)
deriving DecidableEq

/-- The full `daily` command flow at the store level (source lines
144-165). Line 147 loads a snapshot `data`; line 148 runs
`ensure_user_data`, which loads and possibly saves its own fresh copy;
line 149 then indexes the FIRST snapshot `data[user_id]`, which still
lacks a freshly created user (KeyError). On the success path the
mutated snapshot is saved (line 165). -/
def daily_command (disk : JStore) (uid : String) (now : Int) : JStore × CmdRes :=
  let data := disk
  let disk1 := (ensure_user_data disk uid).2
  match lookupKey data uid with
  | none => (disk1, .aborted)
  | some r =>
    match lookupKey r "daily_last_claimed" with
    | none => (disk1, .aborted)
    | some (.num _) => (disk1, .aborted)
    | some (.ts t) =>
      match get_cooldown_message t COOLDOWN_DAILY now with
      | some rem => (disk1, .cooldownActive rem)
      | none =>
        match lookupKey r "balance" with
        | none => (disk1, .aborted)
        | some (.ts _) => (disk1, .aborted)
        | some (.num b) =>
          let r1 := setKey (setKey r "balance" (.num (b + DAILY_REWARD)))
            "daily_last_claimed" (.ts (.iso now))
          (setKey data uid r1, .claimed (b + DAILY_REWARD))

/-- The full `checklist` command flow at the store level (source lines
186-205); same shape as `daily_command` with the checklist field and
reward. -/
def checklist_command (disk : JStore) (uid : String) (now : Int) : JStore × CmdRes :=
  let data := disk
  let disk1 := (ensure_user_data disk uid).2
  match lookupKey data uid with
  | none => (disk1, .aborted)
  | some r =>
    match lookupKey r "checklist_last_claimed" with
    | none => (disk1, .aborted)
    | some (.num _) => (disk1, .aborted)
    | some (.ts t) =>
      match get_cooldown_message t COOLDOWN_CHECKLIST now with
      | some rem => (disk1, .cooldownActive rem)
      | none =>
        match lookupKey r "balance" with
        | none => (disk1, .aborted)
        | some (.ts _) => (disk1, .aborted)
        | some (.num b) =>
          let r1 := setKey (setKey r "balance" (.num (b + CHECKLIST_REWARD)))
            "checklist_last_claimed" (.ts (.iso now))
          (setKey data uid r1, .claimed (b + CHECKLIST_REWARD))

/-- `check_bet` (source lines 223-244): run `ensure_user_data`, then
reject a missing / non-integer amount, a non-positive amount, and an
amount above the balance of the record `ensure_user_data` returned.
The first component is `some ok` for a normal return and `none` for an
uncaught exception (balance field absent or ill-typed); the second is
the persisted store after the call. -/
def check_bet (disk : JStore) (uid : String) (amount : Option Int) :
    Option Bool × JStore :=
  let r := ensure_user_data disk uid
  match amount with
  | none => (some false, r.2)
  | some amt =>
    if amt ≤ 0 then (some false, r.2)
    else
      match lookupKey r.1 "balance" with
      | some (.num b) =>
        if b < amt then (some false, r.2) else (some true, r.2)
      | some (.ts _) => (none, r.2)
      | none => (none, r.2)

/-- Claim C2 (counterexample): a stored record that is present under its
user id but lacks the `total_gambled` field is returned by
`ensure_user_data` exactly as stored — the missing key is NOT
back-filled and nothing is persisted, contrary to the claim. -/
theorem claim2_counterexample :
    ensure_user_data [("u1", [("balance", JV.num 500)])] "u1" =
      ([("balance", JV.num 500)], [("u1", [("balance", JV.num 500)])]) ∧
    lookupKey ((ensure_user_data [("u1", [("balance", JV.num 500)])] "u1").1)
      "total_gambled" = none :=
  ⟨rfl, rfl⟩

/-- Claim C2 (amended): when the user id is already present,
`ensure_user_data` returns the stored record unchanged — whatever fields
it has or lacks — and performs no write; defaults are only supplied when
the whole account is absent. -/
theorem claim2_no_backfill (disk : JStore) (uid : String) (r : Rec)
    (h : lookupKey disk uid = some r) :
    ensure_user_data disk uid = (r, disk) :=
  ensure_user_data_present h

/-- Witness for the amended claim C2 at a concrete legacy record. -/
theorem claim2_no_backfill_witness :
    ensure_user_data [("u2", [("balance", JV.num 7)])] "u2" =
      ([("balance", JV.num 7)], [("u2", [("balance", JV.num 7)])]) :=
  claim2_no_backfill _ "u2" _ rfl

/-- Claim C3: for every stored account and proposed bet, `check_bet`
returns `False` when the amount is missing, when it is non-positive and
when it exceeds the balance, and in every rejected case the persisted
store — hence the account balance — is exactly the one loaded. -/
theorem claim3_check_bet_rejects (disk : JStore) (uid : String) (r : Rec) (b : Int)
    (hu : lookupKey disk uid = some r)
    (hb : lookupKey r "balance" = some (.num b)) :
    check_bet disk uid none = (some false, disk) ∧
    (∀ amt : Int, amt ≤ 0 → check_bet disk uid (some amt) = (some false, disk)) ∧
    (∀ amt : Int, b < amt → check_bet disk uid (some amt) = (some false, disk)) := by
  have he := ensure_user_data_present hu
  refine ⟨by simp [check_bet, he], fun amt h0 => by simp [check_bet, he, h0], ?_⟩
  intro amt hlt
  by_cases h0 : amt ≤ 0
  · simp [check_bet, he, h0]
  · simp [check_bet, he, hb, h0, hlt]

/-- Witness for claim C3: a user with balance 100; a missing amount, the
amount 0 and the amount 101 are all rejected with the store untouched. -/
theorem claim3_check_bet_rejects_witness :
    check_bet [("u3", [("balance", JV.num 100)])] "u3" none =
      (some false, [("u3", [("balance", JV.num 100)])]) ∧
    check_bet [("u3", [("balance", JV.num 100)])] "u3" (some 0) =
      (some false, [("u3", [("balance", JV.num 100)])]) ∧
    check_bet [("u3", [("balance", JV.num 100)])] "u3" (some 101) =
      (some false, [("u3", [("balance", JV.num 100)])]) := by
  obtain ⟨h1, h2, h3⟩ := claim3_check_bet_rejects
    [("u3", [("balance", JV.num 100)])] "u3" [("balance", JV.num 100)] 100 rfl rfl
  exact ⟨h1, h2 0 (by decide), h3 101 (by decide)⟩

/-- Claim C9: when the user id is absent from the persisted store, the
`daily` and `checklist` commands abort with a KeyError on the stale
snapshot loaded before `ensure_user_data` ran, crediting no reward; the
account itself was created and persisted with the default record, whose
balance is the initial balance. -/
theorem claim9_stale_snapshot_key_error (disk : JStore) (uid : String) (now : Int)
    (h : lookupKey disk uid = none) :
    daily_command disk uid now = (setKey disk uid default_user_record, .aborted) ∧
    checklist_command disk uid now =
      (setKey disk uid default_user_record, .aborted) ∧
    lookupKey (setKey disk uid default_user_record) uid =
      some default_user_record ∧
    lookupKey default_user_record "balance" = some (.num INITIAL_BALANCE) := by
  have he := ensure_user_data_absent h
  exact ⟨by simp [daily_command, he, h], by simp [checklist_command, he, h],
    lookupKey_setKey_self _ _ _, rfl⟩

/-- Witness for claim C9 on the empty store. -/
theorem claim9_stale_snapshot_key_error_witness :
    daily_command [] "u9" 0 = (setKey [] "u9" default_user_record, .aborted) ∧
    checklist_command [] "u9" 0 =
      (setKey [] "u9" default_user_record, .aborted) ∧
    lookupKey (setKey [] "u9" default_user_record) "u9" =
      some default_user_record ∧
    lookupKey default_user_record "balance" = some (.num INITIAL_BALANCE) :=
  claim9_stale_snapshot_key_error [] "u9" 0 rfl

/-- Claim C5: on an account whose `daily_last_claimed` parses to time
`t`, a claim strictly inside the 24-hour window is refused with a
positive remaining duration and the account untouched, and a claim at or
after the 24-hour mark credits `DAILY_REWARD` and stamps
`daily_last_claimed` with the current time. -/
theorem claim5_daily_cooldown (a : Account) (t now : Int)
    (h : a.daily_last_claimed = .iso t) :
    (now < t + COOLDOWN_DAILY * 3600 →
      daily a now = (a, .cooldownActive (t + COOLDOWN_DAILY * 3600 - now)) ∧
      0 < t + COOLDOWN_DAILY * 3600 - now) ∧
    (t + COOLDOWN_DAILY * 3600 ≤ now →
      daily a now = ({ a with balance := a.balance + DAILY_REWARD,
                              daily_last_claimed := .iso now }, .claimed)) := by
  constructor
  · intro hlt
    refine ⟨?_, by omega⟩
    simp [daily, get_cooldown_message, h, gt_iff_lt, hlt]
  · intro hge
    have hng : ¬ now < t + COOLDOWN_DAILY * 3600 := by omega
    simp [daily, get_cooldown_message, h, gt_iff_lt, hng]

/-- Witness for claim C5: last claim at second 1000; at second 500 the
claim is refused with 86900 seconds remaining, at second 90400 it
succeeds. -/
theorem claim5_daily_cooldown_witness :
    (daily { fresh_account with daily_last_claimed := .iso 1000 } 500 =
      ({ fresh_account with daily_last_claimed := .iso 1000 },
        .cooldownActive (1000 + COOLDOWN_DAILY * 3600 - 500)) ∧
      0 < 1000 + COOLDOWN_DAILY * 3600 - 500) ∧
    daily { fresh_account with daily_last_claimed := .iso 1000 } 90400 =
      ({ fresh_account with
          balance := fresh_account.balance + DAILY_REWARD,
          daily_last_claimed := .iso 90400 }, .claimed) :=
  ⟨(claim5_daily_cooldown _ 1000 500 rfl).1 (by decide),
    (claim5_daily_cooldown _ 1000 90400 rfl).2 (by decide)⟩

/-- Claim C6: a stored cooldown timestamp that is the sentinel "0" or
any other unparsable string makes `get_cooldown_message` return `None`
(fail-open), so the daily claim proceeds and credits the reward. -/
theorem claim6_unparsable_fail_open (s : String) (hrs now : Int) (a : Account)
    (h : a.daily_last_claimed = .raw s) :
    get_cooldown_message (.raw s) hrs now = none ∧
    daily a now = ({ a with balance := a.balance + DAILY_REWARD,
                            daily_last_claimed := .iso now }, .claimed) :=
  ⟨rfl, by simp [daily, get_cooldown_message, h]⟩

/-- Witness for claim C6 at the sentinel value "0" carried by a fresh
account. -/
theorem claim6_unparsable_fail_open_witness :
    get_cooldown_message (.raw "0") 24 77 = none ∧
    daily fresh_account 77 =
      ({ fresh_account with
          balance := fresh_account.balance + DAILY_REWARD,
          daily_last_claimed := .iso 77 }, .claimed) :=
  claim6_unparsable_fail_open "0" 24 77 fresh_account rfl

/-- A coin side, drawn by `random.choice(['heads', 'tails'])`. -/
inductive Coin where
  | heads
  | tails
deriving DecidableEq

/-- The settlement of the `flip` command after validation (source lines
261-284): `total_gambled` grows by the bet; on a correct guess the bet
is credited as profit and `wins_flip` increments, otherwise the bet is
debited and `losses_flip` increments. -/
def coin_flip (choice result : Coin) (amount : Int) (a : Account) : Account :=
  let a1 := { a with total_gambled := a.total_gambled + amount }
  if choice = result then
    { a1 with balance := a1.balance + amount, wins_flip := a1.wins_flip + 1 }
  else
    { a1 with balance := a1.balance + (-amount), losses_flip := a1.losses_flip + 1 }

/-- One of the five slot symbols of the `emojis` list (source line 308):
cherry, bell, gem, moneybag, crown. -/
inductive SlotSymbol where
  | cherry
  | bell
  | gem
  | moneybag
  | crown
deriving DecidableEq, Fintype

/-- The settlement of the `slot` command after validation (source lines
305-341): three symbols drawn independently; a triple pays
`amount * (10 - 1)`, a double (the `elif` chain) pays `amount * (2 - 1)`,
otherwise the bet is debited; `wins_slot` increments on the first two
branches and `losses_slot` on the third; `total_gambled` grows by the
bet in every case. -/
def slot_machine (s1 s2 s3 : SlotSymbol) (amount : Int) (a : Account) : Account :=
  let a1 := { a with total_gambled := a.total_gambled + amount }
  if s1 = s2 ∧ s2 = s3 then
    { a1 with balance := a1.balance + amount * (10 - 1)
              wins_slot := a1.wins_slot + 1 }
  else if s1 = s2 ∨ s2 = s3 ∨ s1 = s3 then
    { a1 with balance := a1.balance + amount * (2 - 1)
              wins_slot := a1.wins_slot + 1 }
  else
    { a1 with balance := a1.balance - amount
              losses_slot := a1.losses_slot + 1 }

/-- All three symbols equal (the claim calls this the triple class). -/
abbrev tripleMatch (s1 s2 s3 : SlotSymbol) : Prop := s1 = s2 ∧ s2 = s3

/-- Exactly two of the three symbols equal, any pairing. -/
abbrev exactlyTwoEqual (s1 s2 s3 : SlotSymbol) : Prop :=
  (s1 = s2 ∧ s2 ≠ s3) ∨ (s2 = s3 ∧ s1 ≠ s2) ∨ (s1 = s3 ∧ s1 ≠ s2)

/-- All three symbols pairwise distinct. -/
abbrev allDistinct (s1 s2 s3 : SlotSymbol) : Prop :=
  s1 ≠ s2 ∧ s2 ≠ s3 ∧ s1 ≠ s3

/-- Claim C4: every symbol triple falls in exactly one of the three
classes, and `slot_machine` pays `+9 × bet` on a triple, `+1 × bet` on a
double, `-bet` on no match, incrementing `wins_slot` on the first two
classes and `losses_slot` on the third. -/
theorem claim4_slot_partition_and_payouts :
    (∀ s1 s2 s3 : SlotSymbol,
      (tripleMatch s1 s2 s3 ∨ exactlyTwoEqual s1 s2 s3 ∨ allDistinct s1 s2 s3) ∧
      ¬ (tripleMatch s1 s2 s3 ∧ exactlyTwoEqual s1 s2 s3) ∧
      ¬ (tripleMatch s1 s2 s3 ∧ allDistinct s1 s2 s3) ∧
      ¬ (exactlyTwoEqual s1 s2 s3 ∧ allDistinct s1 s2 s3)) ∧
    (∀ (s1 s2 s3 : SlotSymbol) (amount : Int) (a : Account),
      tripleMatch s1 s2 s3 →
      (slot_machine s1 s2 s3 amount a).balance = a.balance + 9 * amount ∧
      (slot_machine s1 s2 s3 amount a).wins_slot = a.wins_slot + 1 ∧
      (slot_machine s1 s2 s3 amount a).losses_slot = a.losses_slot) ∧
    (∀ (s1 s2 s3 : SlotSymbol) (amount : Int) (a : Account),
      exactlyTwoEqual s1 s2 s3 →
      (slot_machine s1 s2 s3 amount a).balance = a.balance + 1 * amount ∧
      (slot_machine s1 s2 s3 amount a).wins_slot = a.wins_slot + 1 ∧
      (slot_machine s1 s2 s3 amount a).losses_slot = a.losses_slot) ∧
    (∀ (s1 s2 s3 : SlotSymbol) (amount : Int) (a : Account),
      allDistinct s1 s2 s3 →
      (slot_machine s1 s2 s3 amount a).balance = a.balance - amount ∧
      (slot_machine s1 s2 s3 amount a).losses_slot = a.losses_slot + 1 ∧
      (slot_machine s1 s2 s3 amount a).wins_slot = a.wins_slot) := by
  refine ⟨by decide, ?_, ?_, ?_⟩
  · intro s1 s2 s3 amount a h
    obtain ⟨h12, h23⟩ := h
    simp [slot_machine, h12, h23]
    try ring
  · intro s1 s2 s3 amount a h
    rcases h with ⟨h1, h2⟩ | ⟨h1, h2⟩ | ⟨h1, h2⟩ <;>
    · have hnt : ¬ (s1 = s2 ∧ s2 = s3) := by tauto
      have hd : s1 = s2 ∨ s2 = s3 ∨ s1 = s3 := by tauto
      simp [slot_machine, hnt, hd]
      try ring
  · intro s1 s2 s3 amount a h
    obtain ⟨h12, h23, h13⟩ := h
    have hnt : ¬ (s1 = s2 ∧ s2 = s3) := by tauto
    have hnd : ¬ (s1 = s2 ∨ s2 = s3 ∨ s1 = s3) := by tauto
    simp [slot_machine, hnt, hnd]

/-- Witness for claim C4 on the triples (bell, bell, bell),
(bell, bell, cherry) and (cherry, bell, gem) with a bet of 10 on a
fresh account. -/
theorem claim4_slot_partition_and_payouts_witness :
    ((slot_machine .bell .bell .bell 10 fresh_account).balance =
        fresh_account.balance + 9 * 10 ∧
      (slot_machine .bell .bell .bell 10 fresh_account).wins_slot =
        fresh_account.wins_slot + 1 ∧
      (slot_machine .bell .bell .bell 10 fresh_account).losses_slot =
        fresh_account.losses_slot) ∧
    ((slot_machine .bell .bell .cherry 10 fresh_account).balance =
        fresh_account.balance + 1 * 10 ∧
      (slot_machine .bell .bell .cherry 10 fresh_account).wins_slot =
        fresh_account.wins_slot + 1 ∧
      (slot_machine .bell .bell .cherry 10 fresh_account).losses_slot =
        fresh_account.losses_slot) ∧
    ((slot_machine .cherry .bell .gem 10 fresh_account).balance =
        fresh_account.balance - 10 ∧
      (slot_machine .cherry .bell .gem 10 fresh_account).losses_slot =
        fresh_account.losses_slot + 1 ∧
      (slot_machine .cherry .bell .gem 10 fresh_account).wins_slot =
        fresh_account.wins_slot) :=
  ⟨claim4_slot_partition_and_payouts.2.1 .bell .bell .bell 10 fresh_account
      (by decide),
    claim4_slot_partition_and_payouts.2.2.1 .bell .bell .cherry 10 fresh_account
      (by decide),
    claim4_slot_partition_and_payouts.2.2.2 .cherry .bell .gem 10 fresh_account
      (by decide)⟩

/-- The `CARD_VALUES` dict (source lines 355-358), keyed by rank
string. -/
def CARD_VALUES : List (String × Nat) :=
  [("2", 2), ("3", 3), ("4", 4), ("5", 5), ("6", 6), ("7", 7), ("8", 8),
   ("9", 9), ("10", 10), ("J", 10), ("Q", 10), ("K", 10), ("A", 11)]

/-- The `CARD_SUITS` list (source line 359). Each suit literal is the
suit symbol followed by U+FE0F (the emoji variation selector), so each
suit is a TWO-character Python string. -/
def CARD_SUITS : List String := ["\u2660\uFE0F", "\u2665\uFE0F", "\u2663\uFE0F", "\u2666\uFE0F"]

/-- The 52 card strings `f"{rank}{suit}"` built by `create_deck`
(source lines 361-368), in construction order. `random.shuffle` then
permutes them; theorems quantify over (or exhibit) permutations of this
list. Python `deck.pop()` removes from the end of the shuffled list; the
model reads draws from the head of the list, which ranges over the same
set of draw sequences as the permutation does. -/
def create_deck_cards : List String :=
  (CARD_VALUES.map (fun rv => CARD_SUITS.map (fun s => rv.1 ++ s))).flatten

/-- `card[:-1]`: the card string with its final character removed
(source lines 373-374). Because every suit ends with U+FE0F, this keeps
the suit symbol attached to the rank. -/
def rank_of (card : String) : String := card.dropRight 1

/-- The generator `sum(CARD_VALUES[card[:-1]] for card in hand if
card[:-1] != 'A')` (source line 373). A `CARD_VALUES` lookup miss is a
Python KeyError, modelled by `none`. -/
def sum_non_ace : List String → Option Nat
  | [] => some 0
  | c :: cs =>
    if rank_of c = "A" then sum_non_ace cs
    else
      match lookupKey CARD_VALUES (rank_of c), sum_non_ace cs with
      | some v, some r => some (v + r)
      | _, _ => none

/-- `num_aces` (source line 374). -/
def num_aces (hand : List String) : Nat :=
  (hand.filter (fun c => rank_of c == "A")).length

/-- The ace-reduction `while` loop (source lines 380-382): subtract 10
per ace while the value exceeds 21. -/
def reduce_aces : Nat → Nat → Nat
  | v, 0 => v
  | v, a + 1 => if v > 21 then reduce_aces (v - 10) a else v

/-- `calculate_hand_value` (source lines 370-384). On every card built
by `create_deck` the rank lookup misses (the suit symbol stays attached
to the rank), so the function raises KeyError — `none` — for every
non-empty real hand. -/
def calculate_hand_value (hand : List String) : Option Nat :=
  match sum_non_ace hand with
  | none => none
  | some base =>
    some (reduce_aces (base + 11 * num_aces hand) (num_aces hand))

/-- The dealer draw loop (source lines 438-440): while the dealer score
is below 17, pop a card and rescore. `none` models an uncaught
exception: a KeyError while scoring, or an IndexError popping an empty
deck. -/
def dealer_draw : List String → Nat → List String → Option (List String × Nat)
  | hand, score, [] => if score < 17 then none else some (hand, score)
  | hand, score, c :: rest =>
    if score < 17 then
      match calculate_hand_value (hand ++ [c]) with
      | none => none
      | some s => dealer_draw (hand ++ [c]) s rest
    else some (hand, score)

/-- The settlement block of `blackjack` (source lines 460-468): credit
the winnings, add the bet to `total_gambled`, and increment `wins_bj` or
`losses_bj` by the sign of `winnings - amount`. -/
def bj_settle (amount winnings : Int) (a : Account) : Account :=
  let a1 := { a with balance := a.balance + winnings
                     total_gambled := a.total_gambled + amount }
  if winnings - amount > 0 then { a1 with wins_bj := a1.wins_bj + 1 }
  else if winnings - amount < 0 then { a1 with losses_bj := a1.losses_bj + 1 }
  else a1

/-- The `blackjack` command after validation (source lines 386-470):
deduct the bet and save, deal two cards each, then resolve. The second
component is the net `final_win_loss` on a normal finish and `none` when
an exception aborts the command — in which case the first component, the
persisted account, has lost the up-front bet and nothing else. Python
`int(amount * 1.5)` truncates; for the positive amounts admitted by
`check_bet` it equals `(3 * amount) / 2`. -/
def blackjack (amount : Int) (deck : List String) (a : Account) :
    Account × Option Int :=
  let a1 := { a with balance := a.balance - amount }
  match deck with
  | d0 :: d1 :: d2 :: d3 :: rest =>
    let player_hand := [d0, d1]
    let dealer_hand := [d2, d3]
    match calculate_hand_value player_hand with
    | none => (a1, none)
    | some player_score =>
      if player_score = 21 then
        match calculate_hand_value dealer_hand with
        | none => (a1, none)
        | some dealer_score =>
          let winnings : Int :=
            if dealer_score = 21 then amount else amount + 3 * amount / 2
          (bj_settle amount winnings a1, some (winnings - amount))
      else if player_score > 21 then
        match calculate_hand_value dealer_hand with
        | none => (a1, none)
        | some _ => (bj_settle amount 0 a1, some (0 - amount))
      else
        match calculate_hand_value dealer_hand with
        | none => (a1, none)
        | some ds0 =>
          match dealer_draw dealer_hand ds0 rest with
          | none => (a1, none)
          | some (_, dealer_score) =>
            let winnings : Int :=
              if dealer_score > 21 then amount * 2
              else if player_score > dealer_score then amount * 2
              else if player_score < dealer_score then 0
              else amount
            (bj_settle amount winnings a1, some (winnings - amount))
  | _ => (a1, none)

/-- A card rank of the standard deck. -/
inductive Rank where
  | r2
  | r3
  | r4
  | r5
  | r6
  | r7
  | r8
  | r9
  | r10
  | jack
  | queen
  | king
  | ace
deriving DecidableEq, Fintype

/-- The `CARD_VALUES` entry of a rank (source lines 355-358); an ace
counts 11 before reduction. -/
def rank_value : Rank → Nat
  | .r2 => 2
  | .r3 => 3
  | .r4 => 4
  | .r5 => 5
  | .r6 => 6
  | .r7 => 7
  | .r8 => 8
  | .r9 => 9
  | .r10 => 10
  | .jack => 10
  | .queen => 10
  | .king => 10
  | .ace => 11

/-- Sum of the non-ace card values of a hand of ranks (source line
373, with the rank correctly extracted). -/
def base_sum : List Rank → Nat
  | [] => 0
  | c :: cs => (if c = .ace then 0 else rank_value c) + base_sum cs

/-- Number of aces in a hand of ranks (source line 374). -/
def ace_count : List Rank → Nat
  | [] => 0
  | c :: cs => (if c = .ace then 1 else 0) + ace_count cs

/-- The scoring arithmetic of `calculate_hand_value` (source lines
370-384) applied to the card ranks themselves: the scoring the spec
describes (natural blackjack values, aces soft-reduced from 11 to 1
while the total exceeds 21). In the source the rank extraction
`card[:-1]` leaves the suit symbol attached — every suit ends in
U+FE0F — so the string-level `calculate_hand_value` raises KeyError on
every real card instead of computing this value; this rank-level
function captures the intended scoring against which the affected
claims are judged. -/
def hand_value_ranks (hand : List Rank) : Nat :=
  reduce_aces (base_sum hand + 11 * ace_count hand) (ace_count hand)

/-- Minimum possible hand total: aces as 1, other ranks at face value.
Proof device for the dealer-loop bound. -/
def low_sum : List Rank → Nat
  | [] => 0
  | c :: cs => (if c = .ace then 1 else rank_value c) + low_sum cs

/-- The dealer draw loop (source lines 438-440) over ranks with the
intended scoring: draw from the deck while the hand scores below 17;
`none` means the deck ran out with the score still below 17. -/
def dealer_draw_ranks : List Rank → List Rank → Option (List Rank)
  | hand, [] => if hand_value_ranks hand < 17 then none else some hand
  | hand, c :: rest =>
    if hand_value_ranks hand < 17 then dealer_draw_ranks (hand ++ [c]) rest
    else some hand

theorem reduce_aces_ge (v a : Nat) : v ≤ reduce_aces v a + 10 * a := by
  induction a generalizing v with
  | zero => simp [reduce_aces]
  | succ n ih =>
    simp only [reduce_aces]
    split
    · have := ih (v - 10)
      omega
    · omega

theorem low_sum_eq_base_add_aces (h : List Rank) :
    low_sum h = base_sum h + ace_count h := by
  induction h with
  | nil => rfl
  | cons c cs ih =>
    by_cases hc : c = .ace <;> simp [low_sum, base_sum, ace_count, hc, ih] <;> omega

theorem two_le_rank_value (c : Rank) : 2 ≤ rank_value c := by
  cases c <;> decide

theorem low_sum_le_hand_value (h : List Rank) :
    low_sum h ≤ hand_value_ranks h := by
  have h1 := reduce_aces_ge (base_sum h + 11 * ace_count h) (ace_count h)
  have h2 := low_sum_eq_base_add_aces h
  unfold hand_value_ranks
  omega

theorem two_mul_length_le (h : List Rank) :
    2 * h.length ≤ low_sum h + ace_count h := by
  induction h with
  | nil => simp [low_sum, ace_count]
  | cons c cs ih =>
    have hv := two_le_rank_value c
    by_cases hc : c = .ace <;>
      simp only [low_sum, ace_count, hc, if_true, if_false, List.length_cons] <;>
      omega

/-- The seven monotone statistics fields are at least their old values. -/
def counters_mono (a b : Account) : Prop :=
  a.wins_flip ≤ b.wins_flip ∧ a.losses_flip ≤ b.losses_flip ∧
  a.wins_slot ≤ b.wins_slot ∧ a.losses_slot ≤ b.losses_slot ∧
  a.wins_bj ≤ b.wins_bj ∧ a.losses_bj ≤ b.losses_bj ∧
  a.total_gambled ≤ b.total_gambled

/-- The seven monotone statistics fields are non-negative. -/
def counters_nonneg (a : Account) : Prop :=
  0 ≤ a.wins_flip ∧ 0 ≤ a.losses_flip ∧ 0 ≤ a.wins_slot ∧ 0 ≤ a.losses_slot ∧
  0 ≤ a.wins_bj ∧ 0 ≤ a.losses_bj ∧ 0 ≤ a.total_gambled

theorem counters_mono_trans {a b c : Account}
    (h1 : counters_mono a b) (h2 : counters_mono b c) : counters_mono a c := by
  unfold counters_mono at *
  omega

theorem counters_mono_preserves_nonneg {a b : Account}
    (h1 : counters_mono a b) (h2 : counters_nonneg a) : counters_nonneg b := by
  unfold counters_mono counters_nonneg at *
  omega

theorem bj_settle_counters_mono (amount winnings : Int) (a : Account)
    (h : 0 ≤ amount) : counters_mono a (bj_settle amount winnings a) := by
  unfold bj_settle counters_mono
  split_ifs <;> simp <;> omega

theorem blackjack_counters_mono (amount : Int) (deck : List String)
    (a : Account) (h : 0 ≤ amount) :
    counters_mono a (blackjack amount deck a).1 := by
  have hm1 : counters_mono a { a with balance := a.balance - amount } := by
    simp [counters_mono]
  have hs : ∀ w, counters_mono a
      (bj_settle amount w { a with balance := a.balance - amount }) :=
    fun w => counters_mono_trans hm1 (bj_settle_counters_mono amount w _ h)
  rcases deck with _ | ⟨d0, _ | ⟨d1, _ | ⟨d2, _ | ⟨d3, rest⟩⟩⟩⟩ <;>
    simp only [blackjack] <;>
    try exact hm1
  repeat' split
  all_goals first | exact hm1 | exact hs _

/-- Claim C7: each of the five operations leaves every per-game win/loss
counter and `total_gambled` at or above its previous value, and
therefore preserves their non-negativity. -/
theorem claim7_counters_monotone (a : Account) (now : Int)
    (choice result : Coin) (s1 s2 s3 : SlotSymbol) (amount : Int)
    (deck : List String) (hamt : 0 ≤ amount) :
    (counters_mono a (daily a now).1 ∧
     counters_mono a (checklist a now).1 ∧
     counters_mono a (coin_flip choice result amount a) ∧
     counters_mono a (slot_machine s1 s2 s3 amount a) ∧
     counters_mono a (blackjack amount deck a).1) ∧
    (counters_nonneg a →
      counters_nonneg (daily a now).1 ∧
      counters_nonneg (checklist a now).1 ∧
      counters_nonneg (coin_flip choice result amount a) ∧
      counters_nonneg (slot_machine s1 s2 s3 amount a) ∧
      counters_nonneg (blackjack amount deck a).1) := by
  have hd : counters_mono a (daily a now).1 := by
    unfold daily
    split <;> simp [counters_mono]
  have hc : counters_mono a (checklist a now).1 := by
    unfold checklist
    split <;> simp [counters_mono]
  have hf : counters_mono a (coin_flip choice result amount a) := by
    unfold coin_flip
    split <;> simp [counters_mono] <;> omega
  have hsl : counters_mono a (slot_machine s1 s2 s3 amount a) := by
    unfold slot_machine
    split_ifs <;> simp [counters_mono] <;> omega
  have hbj := blackjack_counters_mono amount deck a hamt
  exact ⟨⟨hd, hc, hf, hsl, hbj⟩, fun hn =>
    ⟨counters_mono_preserves_nonneg hd hn,
     counters_mono_preserves_nonneg hc hn,
     counters_mono_preserves_nonneg hf hn,
     counters_mono_preserves_nonneg hsl hn,
     counters_mono_preserves_nonneg hbj hn⟩⟩

/-- Claim C8: in the source the dealer score is computed with
`calculate_hand_value`, which raises KeyError on every real two-card
dealer hand (first conjunct, at the hand 5 of spades, 9 of hearts), so
the draw loop is never entered; under the intended rank-level scoring
the loop does satisfy the claim (second conjunct): from any dealer hand,
with at most 4 aces among the cards and at least 11 cards available in
total, the loop always exits with the deck not exhausted and a hand
value of at least 17. -/
theorem claim8_dealer_loop :
    calculate_hand_value ["5♠️", "9♥️"] = none ∧
    ∀ deck hand : List Rank,
      ace_count (hand ++ deck) ≤ 4 → 11 ≤ (hand ++ deck).length →
      ∃ h2, dealer_draw_ranks hand deck = some h2 ∧
        17 ≤ hand_value_ranks h2 := by
  refine ⟨rfl, ?_⟩
  intro deck
  induction deck with
  | nil =>
    intro hand hace hlen
    simp only [List.append_nil] at hace hlen
    by_cases hv : hand_value_ranks hand < 17
    · exfalso
      have h1 := low_sum_le_hand_value hand
      have h2 := two_mul_length_le hand
      omega
    · exact ⟨hand, by simp [dealer_draw_ranks, hv], by omega⟩
  | cons c rest ih =>
    intro hand hace hlen
    by_cases hv : hand_value_ranks hand < 17
    · have heq : (hand ++ [c]) ++ rest = hand ++ c :: rest := by simp
      have hace2 : ace_count ((hand ++ [c]) ++ rest) ≤ 4 := by
        rw [heq]; exact hace
      have hlen2 : 11 ≤ ((hand ++ [c]) ++ rest).length := by
        rw [heq]; exact hlen
      obtain ⟨h2, hdd, hv2⟩ := ih (hand ++ [c]) hace2 hlen2
      exact ⟨h2, by simp [dealer_draw_ranks, hv, hdd], hv2⟩
    · exact ⟨hand, by simp [dealer_draw_ranks, hv], by omega⟩

/-- Witness for the rank-level part of claim C8: dealer hand (5, 9) with
nine low cards remaining; the loop draws to 18 and stops with cards to
spare. -/
theorem claim8_dealer_loop_witness :
    ∃ h2, dealer_draw_ranks [.r5, .r9]
        [.r2, .r2, .r2, .r2, .r3, .r3, .r3, .r3, .r4] = some h2 ∧
      17 ≤ hand_value_ranks h2 :=
  claim8_dealer_loop.2 [.r2, .r2, .r2, .r2, .r3, .r3, .r3, .r3, .r4]
    [.r5, .r9] (by decide) (by decide)

/-- Claim C10: the claim says `calculate_hand_value` yields at most 21
on every initial pair; in the source it yields no value at all — it
raises KeyError on every pair of real cards (first conjunct, at the pair
2 of spades, 3 of hearts). The intended rank-level scoring does satisfy
the bound: every two-card hand scores at most 21 (second conjunct), so
the Player Busts branch is indeed unreachable — though in the source it
is unreachable only because the command aborts first. -/
theorem claim10_two_cards_le_21 :
    calculate_hand_value ["2♠️", "3♥️"] = none ∧
    ∀ c1 c2 : Rank, hand_value_ranks [c1, c2] ≤ 21 :=
  ⟨rfl, by decide⟩

/-- A shuffle of the real 52-card deck that deals the player an ace and
a king (a natural 21) and the dealer a 5 and a 9. -/
def c1_deck : List String :=
  "A♠️" :: "K♥️" :: "5♣️" :: "9♦️" ::
    ((((create_deck_cards.erase "A♠️").erase "K♥️").erase
        "5♣️").erase "9♦️")

/-- Claim C1 (code bug): with a validated bet of 100 and a deck dealing
the player a natural (ace and king, worth 21 under the intended scoring,
third conjunct), the blackjack command does not settle at +1.5 × bet: it
deducts the bet, saves, and then aborts with KeyError inside
`calculate_hand_value`, leaving the net delta at exactly −bet (first
conjunct). The deck used is a permutation of the real deck (second
conjunct). -/
theorem claim1_natural_pays_nothing :
    blackjack 100 c1_deck fresh_account =
      ({ fresh_account with balance := fresh_account.balance - 100 }, none) ∧
    c1_deck.Perm create_deck_cards ∧
    hand_value_ranks [.ace, .king] = 21 := by
  refine ⟨rfl, ?_, rfl⟩
  have p1 : create_deck_cards.Perm
      ("A♠️" :: create_deck_cards.erase "A♠️") :=
    List.perm_cons_erase (by decide)
  have p2 : (create_deck_cards.erase "A♠️").Perm
      ("K♥️" ::
        (create_deck_cards.erase "A♠️").erase "K♥️") :=
    List.perm_cons_erase (by decide)
  have p3 : ((create_deck_cards.erase "A♠️").erase
      "K♥️").Perm
      ("5♣️" ::
        ((create_deck_cards.erase "A♠️").erase
          "K♥️").erase "5♣️") :=
    List.perm_cons_erase (by decide)
  have p4 : (((create_deck_cards.erase "A♠️").erase
      "K♥️").erase "5♣️").Perm
      ("9♦️" ::
        (((create_deck_cards.erase "A♠️").erase
          "K♥️").erase "5♣️").erase "9♦️") :=
    List.perm_cons_erase (by decide)
  exact (p1.trans ((p2.trans ((p3.trans
    (p4.cons "5♣️")).cons "K♥️")).cons
      "A♠️")).symm

/-- Witness for claim C7: on a fresh account, the blackjack flow over
the real deck keeps the counters monotone, and a losing slot spin keeps
them non-negative. -/
theorem claim7_counters_monotone_witness :
    counters_mono fresh_account
      (blackjack 10 create_deck_cards fresh_account).1 ∧
    counters_nonneg (slot_machine .cherry .bell .gem 10 fresh_account) := by
  have h := claim7_counters_monotone fresh_account 0 .heads .tails
    .cherry .bell .gem 10 create_deck_cards (by norm_num)
  have hn : counters_nonneg fresh_account := by
    unfold counters_nonneg
    simp [fresh_account]
  exact ⟨h.1.2.2.2.2, (h.2 hn).2.2.2.1⟩
